import Mathlib

/-!
Verification of the layered state container of `gradio_experiments/data.py`.

The spec names map to the source as follows: VersionedValue is
`SomePydanticModel`, TaskResult is `SomeTask`, StateContainer is `StateData`,
`primary` is the `a_pydantic_object` field, `items` is `a_list`, `tagged` is
`a_dict`, `task_ref` is `an_object`; ToExportForm is `to_dict`,
ResetFromExportForm is `reset_from_json`, MakeRandomChanges is
`make_random_changes`, DeepCopy is `__deepcopy__`, Run is `do_task`.

Python reference semantics are made explicit: list objects, dict objects and
`SomeTask` objects live in a `Heap` addressed by natural numbers, and a
`StateData` record holds addresses (`Option Nat`, `none` modelling Python
`None`).  Mutation is explicit heap update; `random.randint` is modelled by a
function of a seed that always lands in the inclusive range; the wall clock is
an explicit string parameter.  JSON-compatible Python values are the `Json`
type, and pydantic validation (v2 lax mode) is `SomePydanticModel.validate`,
with the Python exception classes abstracted to `PyErr`.  Operations that can
raise after mutating return `Except` values that carry the state at the point
the exception was raised, mirroring the Python mutate-then-raise behaviour.
-/

/-- The JSON-compatible Python values exchanged by `to_dict` / `reset_from_json`.
An object is an insertion-ordered association list, like a Python dict. -/
inductive Json where
  | null : Json
  | int : Int → Json
  | str : String → Json
  | arr : List Json → Json
  | obj : List (String × Json) → Json

/-- Python truthiness of a JSON-compatible value (`None`, `0`, `""`, empty list
and empty dict are falsy). -/
def Json.truthy : Json → Bool
  | .null => false
  | .int n => n != 0
  | .str s => s != ""
  | .arr xs => !xs.isEmpty
  | .obj kvs => !kvs.isEmpty

/-- Python dict key lookup on the association-list model (first match wins;
Python dicts have unique keys, so this is exact). -/
def lookupKey (k : String) : List (String × Json) → Option Json
  | [] => none
  | (k2, v) :: rest => if k2 = k then some v else lookupKey k rest

/-- Exception classes that the modelled code can raise, abstracted to the kind
the spec talks about. -/
inductive PyErr where
  | validationError : PyErr
  | typeError : PyErr
  | attributeError : PyErr
deriving DecidableEq, Repr

/-- Model of `SomePydanticModel`: fields `a: int`, `b: str`, `c: Optional[List[int]]`
(default `[]`). -/
structure SomePydanticModel where
  a : Int
  b : String
  c : Option (List Int)
deriving DecidableEq, Repr

/-- Model of `model_dump()` of `SomePydanticModel`: the field dict, with `c = None`
dumped as JSON null. -/
def SomePydanticModel.model_dump (m : SomePydanticModel) : Json :=
  .obj [("a", .int m.a), ("b", .str m.b),
    ("c", match m.c with
      | none => .null
      | some l => .arr (l.map (fun i => .int i)))]

/-- The digits of a decimal integer literal, or `none` when the character list
is empty or holds a non-digit. -/
def digitsToNatOpt (cs : List Char) : Option Nat :=
  if cs ≠ [] ∧ cs.all (fun ch => ch.isDigit) then
    some (cs.foldl (fun acc ch => acc * 10 + (ch.toNat - 48)) 0)
  else none

/-- Lax parse of a string as an integer (optional leading minus then digits),
modelling pydantic v2 string-to-int coercion. -/
def strToIntOpt (s : String) : Option Int :=
  match s.data with
  | '-' :: rest => (digitsToNatOpt rest).map (fun n => -(n : Int))
  | cs => (digitsToNatOpt cs).map (fun n => (n : Int))

/-- Pydantic v2 lax validation of an `int` field: accepts an integer or an
integer-shaped string, rejects everything else with a ValidationError. -/
def coerceInt : Json → Except PyErr Int
  | .int n => .ok n
  | .str s =>
    match strToIntOpt s with
    | some n => .ok n
    | none => .error .validationError
  | _ => .error .validationError

/-- Pydantic v2 validation of a `str` field: accepts only a string. -/
def coerceStr : Json → Except PyErr String
  | .str s => .ok s
  | _ => .error .validationError

/-- First-error-wins traversal of a list with a fallible function, modelling a
Python comprehension that raises at the first bad element. -/
def mapME (f : Json → Except PyErr α) : List Json → Except PyErr (List α)
  | [] => .ok []
  | x :: xs =>
    match f x with
    | .error e => .error e
    | .ok y =>
      match mapME f xs with
      | .error e => .error e
      | .ok ys => .ok (y :: ys)

/-- Pydantic v2 validation of the `Optional[List[int]]` field `c`: null gives
`None`, a list coerces element-wise, anything else is a ValidationError. -/
def coerceIntList : Json → Except PyErr (Option (List Int))
  | .null => .ok none
  | .arr xs =>
    match mapME coerceInt xs with
    | .error e => .error e
    | .ok l => .ok (some l)
  | _ => .error .validationError

/-- Model of `SomePydanticModel(**kvs)`: pydantic validation of the keyword dict.
Missing `a` or `b` is a ValidationError; `c` is optional with default `[]`;
extra keys are ignored (pydantic default). -/
def SomePydanticModel.validate (kvs : List (String × Json)) :
    Except PyErr SomePydanticModel :=
  match lookupKey "a" kvs with
  | none => .error .validationError
  | some av =>
    match coerceInt av with
    | .error e => .error e
    | .ok a =>
      match lookupKey "b" kvs with
      | none => .error .validationError
      | some bv =>
        match coerceStr bv with
        | .error e => .error e
        | .ok b =>
          match lookupKey "c" kvs with
          | none => .ok ⟨a, b, some []⟩
          | some cv =>
            match coerceIntList cv with
            | .error e => .error e
            | .ok c => .ok ⟨a, b, c⟩

/-- Model of `SomePydanticModel(**v)` for an arbitrary JSON value `v`: the `**` splat
needs a mapping, so a non-object raises a TypeError before validation. -/
def validateJson : Json → Except PyErr SomePydanticModel
  | .obj kvs => SomePydanticModel.validate kvs
  | _ => .error .typeError

/-- Model of `SomeTask`: one mutable string field `task_output`. -/
structure SomeTask where
  task_output : String
deriving DecidableEq, Repr

/-- Model of `SomeTask.__init__`: the not-yet-executed sentinel. -/
def SomeTask.init : SomeTask :=
  ⟨"task-not-executed-in-this-session"⟩

/-- Model of `SomeTask.do_task`: overwrites `task_output` with a timestamped marker
(`datetime.datetime.now()` is the explicit `now` argument). -/
def SomeTask.do_task (now : String) (_t : SomeTask) : SomeTask :=
  ⟨"task-done at " ++ now⟩

/-- Model of `str(...)` on a `SomeTask`: the class defines no `__str__`, so Python uses
the default `repr`, which shows only the type and the memory address of the
object — it never mentions `task_output`. -/
def SomeTask.str_repr (addr : Nat) : String :=
  "<SomeTask object at " ++ toString addr ++ ">"

/-- Pointwise update of a heap component. -/
def updFn (f : Nat → α) (i : Nat) (v : α) : Nat → α :=
  fun j => if j = i then v else f j

/-- The explicit heap: list objects, dict objects and `SomeTask` objects, each
addressed by naturals below the respective allocation counter. -/
structure Heap where
  lists : Nat → List SomePydanticModel
  dicts : Nat → List (String × SomePydanticModel)
  tasks : Nat → SomeTask
  nextList : Nat
  nextDict : Nat
  nextTask : Nat

/-- Allocate a fresh list object. -/
def Heap.allocList (h : Heap) (xs : List SomePydanticModel) : Nat × Heap :=
  (h.nextList,
    { h with lists := updFn h.lists h.nextList xs, nextList := h.nextList + 1 })

/-- Allocate a fresh dict object. -/
def Heap.allocDict (h : Heap) (kvs : List (String × SomePydanticModel)) :
    Nat × Heap :=
  (h.nextDict,
    { h with dicts := updFn h.dicts h.nextDict kvs, nextDict := h.nextDict + 1 })

/-- Allocate a fresh `SomeTask` object. -/
def Heap.allocTask (h : Heap) (t : SomeTask) : Nat × Heap :=
  (h.nextTask,
    { h with tasks := updFn h.tasks h.nextTask t, nextTask := h.nextTask + 1 })

/-- In-place mutation of an existing list object. -/
def Heap.setList (h : Heap) (r : Nat) (xs : List SomePydanticModel) : Heap :=
  { h with lists := updFn h.lists r xs }

/-- In-place mutation of an existing dict object. -/
def Heap.setDict (h : Heap) (r : Nat) (kvs : List (String × SomePydanticModel)) :
    Heap :=
  { h with dicts := updFn h.dicts r kvs }

/-- In-place mutation of an existing `SomeTask` object. -/
def Heap.setTask (h : Heap) (r : Nat) (t : SomeTask) : Heap :=
  { h with tasks := updFn h.tasks r t }

/-- A heap with nothing allocated, used as the initial world for concrete
executions. -/
def emptyHeap : Heap :=
  ⟨fun _ => [], fun _ => [], fun _ => ⟨""⟩, 0, 0, 0⟩

/-- Model of `StateData`: four attributes, each either Python `None` or a value /
heap address.  `a_pydantic_object` is held by value because the source only
ever rebinds it (never mutates it in place); `a_list`, `a_dict` and
`an_object` are addresses of heap objects because the source mutates them
in place and shares them. -/
structure StateData where
  a_pydantic_object : Option SomePydanticModel
  a_list : Option Nat
  a_dict : Option Nat
  an_object : Option Nat
deriving DecidableEq, Repr

/-- Model of `StateData.__init__(create_uninitialised, an_object)`: either the
all-`None` placeholder, or defaults with a fresh (or seeded) task object and
fresh empty list and dict objects. -/
def StateData.init (create_uninitialised : Bool) (an_object : Option Nat)
    (h : Heap) : StateData × Heap :=
  if create_uninitialised then (⟨none, none, none, none⟩, h)
  else
    let tr := match an_object with
      | some r => (r, h)
      | none => h.allocTask SomeTask.init
    let lr := tr.2.allocList []
    let dr := lr.2.allocDict []
    (⟨some ⟨1, "default", some [1, 2, 3, 4]⟩, some lr.1, some dr.1, some tr.1⟩,
      dr.2)

/-- The Populated state of the spec: all four fields non-null. -/
def StateData.populated (s : StateData) : Bool :=
  s.a_pydantic_object.isSome && s.a_list.isSome && s.a_dict.isSome &&
    s.an_object.isSome

/-- The Uninitialised state of the spec: all four fields null. -/
def StateData.uninitialised (s : StateData) : Bool :=
  s.a_pydantic_object.isNone && s.a_list.isNone && s.a_dict.isNone &&
    s.an_object.isNone

/-- A reference is live when it is below the allocation counter. -/
def refLt : Option Nat → Nat → Bool
  | none, _ => true
  | some r, n => decide (r < n)

/-- All addresses held by the container are live in the heap. -/
def StateData.wf (s : StateData) (h : Heap) : Bool :=
  refLt s.a_list h.nextList && refLt s.a_dict h.nextDict &&
    refLt s.an_object h.nextTask

/-- Model of `StateData.to_dict`: the serializable export form.  Each entry mirrors a
`x if x else None` in the source, so Python truthiness applies: a `None`
attribute gives null, but so do an *empty* list and an *empty* dict; the
`an_object` entry is `str(self.an_object)`, the default repr of the task
object. -/
def StateData.to_dict (s : StateData) (h : Heap) : List (String × Json) :=
  [("a_pydantic_object",
      match s.a_pydantic_object with
      | some m => m.model_dump
      | none => .null),
    ("an_object",
      match s.an_object with
      | some r => .str (SomeTask.str_repr r)
      | none => .null),
    ("a_list",
      match s.a_list with
      | some r =>
        if (h.lists r).isEmpty then .null
        else .arr ((h.lists r).map SomePydanticModel.model_dump)
      | none => .null),
    ("a_dict",
      match s.a_dict with
      | some r =>
        if (h.dicts r).isEmpty then .null
        else .obj ((h.dicts r).map (fun kv => (kv.1, kv.2.model_dump)))
      | none => .null)]

/-- Model of `random.randint(lo, hi)`: inclusive uniform draw, modelled as a function of
an arbitrary seed so that every draw lands in `[lo, hi]`. -/
def randint (lo hi sd : Nat) : Nat :=
  lo + sd % (hi - lo + 1)

/-- One seed per `random.randint` call made by `make_random_changes`, in call
order: list-entry `a`, list-entry range bound, dict key number, dict-entry `a`,
dict-entry range bound, primary `a`, primary range bound. -/
structure Draws where
  d1 : Nat
  d2 : Nat
  d3 : Nat
  d4 : Nat
  d5 : Nat
  d6 : Nat
  d7 : Nat

/-- Python dict assignment `d[k] = v`: replace in place when the key exists
(keeping its position), append otherwise. -/
def upsertD (kvs : List (String × SomePydanticModel)) (k : String)
    (v : SomePydanticModel) : List (String × SomePydanticModel) :=
  match kvs with
  | [] => [(k, v)]
  | (k2, v2) :: rest =>
    if k2 = k then (k, v) :: rest else (k2, v2) :: upsertD rest k v

/-- Model of `StateData.make_random_changes(caller)`: appends one fresh record to the
list object, upserts one fresh record into the dict object under a random
`key-{n}` key, rebinds `a_pydantic_object` to a fresh record, and runs the
shared task.  `now` is the timestamp taken at the top of the method and used in
the `b` labels; `tnow` is the later timestamp `do_task` takes for itself.  A
`None` attribute raises (AttributeError/TypeError) at the corresponding step;
the `Except.error` payload carries the state at the point of the raise, as in
Python. -/
def StateData.make_random_changes (caller now tnow : String) (d : Draws)
    (s : StateData) (h : Heap) : Except (StateData × Heap) (StateData × Heap) :=
  match s.a_list with
  | none => .error (s, h)
  | some lr =>
    let b := "changed-" ++ caller ++ "@" ++ now
    let item1 : SomePydanticModel :=
      ⟨(randint 0 99 d.d1 : Nat), b,
        some ((List.range (randint 0 9 d.d2)).map (fun i => (i : Int)))⟩
    let h1 := h.setList lr (h.lists lr ++ [item1])
    match s.a_dict with
    | none => .error (s, h1)
    | some dr =>
      let key := "key-" ++ toString (randint 0 9999 d.d3)
      let item2 : SomePydanticModel :=
        ⟨(randint 0 999 d.d4 : Nat), b,
          some ((List.range (randint 0 9 d.d5)).map (fun i => (i : Int)))⟩
      let h2 := h1.setDict dr (upsertD (h1.dicts dr) key item2)
      let item3 : SomePydanticModel :=
        ⟨(randint 0 499 d.d6 : Nat), b,
          some ((List.range (randint 0 9 d.d7)).map (fun i => (i : Int)))⟩
      let s2 := { s with a_pydantic_object := some item3 }
      match s.an_object with
      | none => .error (s2, h2)
      | some tr => .ok (s2, h2.setTask tr (SomeTask.do_task tnow (h2.tasks tr)))

/-- First statement of `reset_from_json`: when `"a_pydantic_object"` is
present, a truthy value is validated into a fresh record (a failure raises
before the attribute is rebound), a falsy one rebinds the attribute to
`None`. -/
def resetStep1 (json_data : List (String × Json)) (s : StateData) (h : Heap) :
    Except (PyErr × StateData × Heap) (StateData × Heap) :=
  match lookupKey "a_pydantic_object" json_data with
  | none => .ok (s, h)
  | some v =>
    if v.truthy then
      match validateJson v with
      | .error e => .error (e, s, h)
      | .ok m => .ok ({ s with a_pydantic_object := some m }, h)
    else .ok ({ s with a_pydantic_object := none }, h)

/-- Second statement of `reset_from_json`: when `"a_list"` is present, a truthy
list value is validated element-wise into a freshly allocated list object, any
other truthy value raises a TypeError, and a falsy value rebinds `a_list` to a
fresh empty list. -/
def resetStep2 (json_data : List (String × Json)) (s : StateData) (h : Heap) :
    Except (PyErr × StateData × Heap) (StateData × Heap) :=
  match lookupKey "a_list" json_data with
  | none => .ok (s, h)
  | some v =>
    if v.truthy then
      match v with
      | .arr xs =>
        match mapME validateJson xs with
        | .error e => .error (e, s, h)
        | .ok items =>
          let a := h.allocList items
          .ok ({ s with a_list := some a.1 }, a.2)
      | _ => .error (.typeError, s, h)
    else
      let a := h.allocList []
      .ok ({ s with a_list := some a.1 }, a.2)

/-- First-error-wins traversal of the values of a dict with a fallible function,
modelling the dict comprehension in `reset_from_json`. -/
def mapMD (f : Json → Except PyErr SomePydanticModel) :
    List (String × Json) → Except PyErr (List (String × SomePydanticModel))
  | [] => .ok []
  | (k, v) :: rest =>
    match f v with
    | .error e => .error e
    | .ok m =>
      match mapMD f rest with
      | .error e => .error e
      | .ok ms => .ok ((k, m) :: ms)

/-- Third statement of `reset_from_json`: when `"a_dict"` is present, a truthy
dict value is validated value-wise into a freshly allocated dict object, any
other truthy value raises (`.items()` is missing: AttributeError), and a falsy
value rebinds `a_dict` to a fresh empty dict. -/
def resetStep3 (json_data : List (String × Json)) (s : StateData) (h : Heap) :
    Except (PyErr × StateData × Heap) (StateData × Heap) :=
  match lookupKey "a_dict" json_data with
  | none => .ok (s, h)
  | some v =>
    if v.truthy then
      match v with
      | .obj kvs =>
        match mapMD validateJson kvs with
        | .error e => .error (e, s, h)
        | .ok pairs =>
          let a := h.allocDict pairs
          .ok ({ s with a_dict := some a.1 }, a.2)
      | _ => .error (.attributeError, s, h)
    else
      let a := h.allocDict []
      .ok ({ s with a_dict := some a.1 }, a.2)

/-- Model of `StateData.reset_from_json(json_data)`: processes the keys in source
order `a_pydantic_object`, `a_list`, `a_dict`; an absent key leaves its
attribute untouched, and `an_object` is never touched.  An exception aborts
the remaining statements and the error payload carries the partially updated
state, exactly as the Python mutate-then-raise behaviour does. -/
def StateData.reset_from_json (json_data : List (String × Json))
    (s : StateData) (h : Heap) :
    Except (PyErr × StateData × Heap) (StateData × Heap) :=
  match resetStep1 json_data s h with
  | .error e => .error e
  | .ok p1 =>
    match resetStep2 json_data p1.1 p1.2 with
    | .error e => .error e
    | .ok p2 => resetStep3 json_data p2.1 p2.2

/-- Model of `StateData.__deepcopy__`: copies `a_pydantic_object` structurally,
allocates fresh list and dict objects holding copies of the contents, and
shares the very same `an_object` address. -/
def StateData.deepcopy (s : StateData) (h : Heap) : StateData × Heap :=
  let lp : Option Nat × Heap :=
    match s.a_list with
    | none => (none, h)
    | some r =>
      let a := h.allocList (h.lists r)
      (some a.1, a.2)
  let dp : Option Nat × Heap :=
    match s.a_dict with
    | none => (none, lp.2)
    | some r =>
      let a := lp.2.allocDict (lp.2.dicts r)
      (some a.1, a.2)
  (⟨s.a_pydantic_object, lp.1, dp.1, s.an_object⟩, dp.2)

/-- The container state after a `reset_from_json` call, whether it returned or
raised (the error payload carries the state at the raise). -/
def resetOutState :
    Except (PyErr × StateData × Heap) (StateData × Heap) → StateData
  | .ok p => p.1
  | .error e => e.2.1

/-- The heap after a `reset_from_json` call, whether it returned or raised. -/
def resetOutHeap : Except (PyErr × StateData × Heap) (StateData × Heap) → Heap
  | .ok p => p.2
  | .error e => e.2.2

/-- The exception class a `reset_from_json` call raised, if any. -/
def resetErrKind :
    Except (PyErr × StateData × Heap) (StateData × Heap) → Option PyErr
  | .ok _ => none
  | .error e => some e.1

/-- Observer: the value stored under a key of an export form, when it is a
string. -/
def strAt (k : String) (kvs : List (String × Json)) : Option String :=
  match lookupKey k kvs with
  | some (.str s) => some s
  | _ => none

/-- Observer: whether an export form stores JSON null under a key. -/
def isNullAt (k : String) (kvs : List (String × Json)) : Bool :=
  match lookupKey k kvs with
  | some .null => true
  | _ => false

/-- The container state after a `make_random_changes` call, whether it
returned or raised. -/
def mrOutState : Except (StateData × Heap) (StateData × Heap) → StateData
  | .ok p => p.1
  | .error p => p.1

/-- The heap after a `make_random_changes` call, whether it returned or
raised. -/
def mrOutHeap : Except (StateData × Heap) (StateData × Heap) → Heap
  | .ok p => p.2
  | .error p => p.2

/-- Whether a `make_random_changes` call completed without raising. -/
def mrOk : Except (StateData × Heap) (StateData × Heap) → Bool
  | .ok _ => true
  | .error _ => false

/-- A concrete freshly constructed container and its heap, used for witnesses
and counterexamples: `StateData()` run in an empty world. -/
def demoPair : StateData × Heap :=
  StateData.init false none emptyHeap

theorem mapME_coerceInt_map (l : List Int) :
    mapME coerceInt (l.map (fun i => Json.int i)) = .ok l := by
  induction l with
  | nil => rfl
  | cons x xs ih => simp [mapME, coerceInt, ih]

theorem coerceIntList_dump (c : Option (List Int)) :
    coerceIntList
        (match c with
          | none => Json.null
          | some l => Json.arr (l.map (fun i => Json.int i))) = .ok c := by
  cases c with
  | none => rfl
  | some l => simp [coerceIntList, mapME_coerceInt_map]

theorem validateJson_dump (m : SomePydanticModel) :
    validateJson m.model_dump = .ok m := by
  obtain ⟨a, b, c⟩ := m
  have hc := coerceIntList_dump c
  simp [SomePydanticModel.model_dump, validateJson, SomePydanticModel.validate,
    lookupKey, coerceInt, coerceStr] at hc ⊢
  cases c with
  | none => simp at hc ⊢; simp [hc]
  | some l => simp at hc ⊢; simp [hc]

theorem mapME_validate_dump (xs : List SomePydanticModel) :
    mapME validateJson (xs.map SomePydanticModel.model_dump) = .ok xs := by
  induction xs with
  | nil => rfl
  | cons x t ih => simp [mapME, validateJson_dump, ih]

theorem mapMD_validate_dump (kvs : List (String × SomePydanticModel)) :
    mapMD validateJson (kvs.map (fun kv => (kv.1, kv.2.model_dump))) = .ok kvs := by
  induction kvs with
  | nil => rfl
  | cons x t ih => simp [mapMD, validateJson_dump, ih]

theorem truthy_dump (m : SomePydanticModel) :
    (SomePydanticModel.model_dump m).truthy = true := rfl

theorem populated_fields (s : StateData) (hp : s.populated = true) :
    (∃ pm, s.a_pydantic_object = some pm) ∧ (∃ lr, s.a_list = some lr) ∧
      (∃ dr, s.a_dict = some dr) ∧ (∃ tr, s.an_object = some tr) := by
  simp [StateData.populated, Option.isSome_iff_exists] at hp
  exact ⟨hp.1.1.1, hp.1.1.2, hp.1.2, hp.2⟩

/-- C1 counterexample: for the freshly constructed container, the `an_object`
entry of the export form (the spec `task` key) is the default object repr of
the shared task, not the string form of its `task_output` field, which still
holds the construction sentinel — so the claim fails at this concrete input. -/
theorem C1_counterexample :
    demoPair.1.an_object = some 0 ∧
      strAt "an_object" (demoPair.1.to_dict demoPair.2)
        = some (SomeTask.str_repr 0) ∧
      (demoPair.2.tasks 0).task_output = "task-not-executed-in-this-session" ∧
      SomeTask.str_repr 0 ≠ "task-not-executed-in-this-session" := by
  refine ⟨rfl, rfl, rfl, ?_⟩
  decide

/-- C1 (amended): for every Populated container, the `an_object`
entry of the export form (the spec `task` key) is the string representation of the shared task
*object* — its default repr, a function of the object address alone — and not
the value of the task `output` field. -/
theorem C1_export_task_is_object_repr (s : StateData) (h : Heap)
    (hp : s.populated = true) :
    ∃ r, s.an_object = some r ∧
      lookupKey "an_object" (s.to_dict h)
        = some (.str (SomeTask.str_repr r)) := by
  obtain ⟨-, -, -, tr, htr⟩ := populated_fields s hp
  exact ⟨tr, htr, by simp [StateData.to_dict, lookupKey, htr]⟩

/-- C1 witness: the amended theorem applied to the freshly constructed
container. -/
theorem C1_witness :
    demoPair.1.populated = true ∧
      ∃ r, demoPair.1.an_object = some r ∧
        lookupKey "an_object" (demoPair.1.to_dict demoPair.2)
          = some (.str (SomeTask.str_repr r)) :=
  ⟨by decide, C1_export_task_is_object_repr demoPair.1 demoPair.2 (by decide)⟩

/-- C2 counterexample: the task allocated by a seedless construction holds the
sentinel `"task-not-executed-in-this-session"`, not the claimed sentinel
`"not-executed"`. -/
theorem C2_counterexample :
    demoPair.1.an_object = some 0 ∧
      (demoPair.2.tasks 0).task_output ≠ "not-executed" := by
  refine ⟨rfl, ?_⟩
  decide

/-- C2 (amended): seedless construction yields
`primary = {a:1, b:"default", c:[1,2,3,4]}`, an empty list, an empty dict, and
a freshly allocated task object whose output is the sentinel
`"task-not-executed-in-this-session"`. -/
theorem C2_construction_defaults (h : Heap) :
    (StateData.init false none h).1.a_pydantic_object
        = some ⟨1, "default", some [1, 2, 3, 4]⟩ ∧
      (StateData.init false none h).1.a_list = some h.nextList ∧
      (StateData.init false none h).2.lists h.nextList = [] ∧
      (StateData.init false none h).1.a_dict = some h.nextDict ∧
      (StateData.init false none h).2.dicts h.nextDict = [] ∧
      (StateData.init false none h).1.an_object = some h.nextTask ∧
      ((StateData.init false none h).2.tasks h.nextTask).task_output
        = "task-not-executed-in-this-session" ∧
      (StateData.init false none h).2.nextTask = h.nextTask + 1 := by
  simp [StateData.init, Heap.allocTask, Heap.allocList, Heap.allocDict, updFn,
    SomeTask.init]

/-- C3 counterexample: the freshly constructed container is Populated — its
`a_list` and `a_dict` are non-null (empty) objects — yet the export form holds
JSON null under both keys, so null values do not occur only when the field
itself is null. -/
theorem C3_counterexample :
    demoPair.1.a_list ≠ none ∧
      isNullAt "a_list" (demoPair.1.to_dict demoPair.2) = true ∧
      demoPair.1.a_dict ≠ none ∧
      isNullAt "a_dict" (demoPair.1.to_dict demoPair.2) = true := by
  decide

/-- C3 (amended): for every Populated container, `primary` exports to the
flattened record (never null), while `a_list` / `a_dict` export to JSON null
exactly when the collection is empty — Python truthiness conflates empty with
`None` — and otherwise to the array / object of flattened records. -/
theorem C3_export_shape (s : StateData) (h : Heap) (hp : s.populated = true) :
    ∃ pm lr dr, s.a_pydantic_object = some pm ∧ s.a_list = some lr ∧
      s.a_dict = some dr ∧
      lookupKey "a_pydantic_object" (s.to_dict h) = some pm.model_dump ∧
      (lookupKey "a_list" (s.to_dict h) = some Json.null ↔ h.lists lr = []) ∧
      (h.lists lr ≠ [] →
        lookupKey "a_list" (s.to_dict h)
          = some (.arr ((h.lists lr).map SomePydanticModel.model_dump))) ∧
      (lookupKey "a_dict" (s.to_dict h) = some Json.null ↔ h.dicts dr = []) ∧
      (h.dicts dr ≠ [] →
        lookupKey "a_dict" (s.to_dict h)
          = some (.obj ((h.dicts dr).map (fun kv => (kv.1, kv.2.model_dump))))) := by
  obtain ⟨⟨pm, hpm⟩, ⟨lr, hlr⟩, ⟨dr, hdr⟩, -⟩ := populated_fields s hp
  refine ⟨pm, lr, dr, hpm, hlr, hdr, ?_, ?_, ?_, ?_, ?_⟩
  · simp [StateData.to_dict, lookupKey, hpm]
  · cases hL : h.lists lr with
    | nil => simp [StateData.to_dict, lookupKey, hlr, hL]
    | cons x t => simp [StateData.to_dict, lookupKey, hlr, hL]
  · intro hne
    cases hL : h.lists lr with
    | nil => exact absurd hL hne
    | cons x t => simp [StateData.to_dict, lookupKey, hlr, hL]
  · cases hD : h.dicts dr with
    | nil => simp [StateData.to_dict, lookupKey, hdr, hD]
    | cons x t => simp [StateData.to_dict, lookupKey, hdr, hD]
  · intro hne
    cases hD : h.dicts dr with
    | nil => exact absurd hD hne
    | cons x t => simp [StateData.to_dict, lookupKey, hdr, hD]

/-- C3 witness: the amended theorem applied to the freshly constructed
container. -/
theorem C3_witness :
    demoPair.1.populated = true ∧
      ∃ pm lr dr, demoPair.1.a_pydantic_object = some pm ∧
        demoPair.1.a_list = some lr ∧ demoPair.1.a_dict = some dr ∧
        lookupKey "a_pydantic_object" (demoPair.1.to_dict demoPair.2)
          = some pm.model_dump ∧
        (lookupKey "a_list" (demoPair.1.to_dict demoPair.2) = some Json.null ↔
          demoPair.2.lists lr = []) ∧
        (demoPair.2.lists lr ≠ [] →
          lookupKey "a_list" (demoPair.1.to_dict demoPair.2)
            = some (.arr ((demoPair.2.lists lr).map SomePydanticModel.model_dump))) ∧
        (lookupKey "a_dict" (demoPair.1.to_dict demoPair.2) = some Json.null ↔
          demoPair.2.dicts dr = []) ∧
        (demoPair.2.dicts dr ≠ [] →
          lookupKey "a_dict" (demoPair.1.to_dict demoPair.2)
            = some (.obj ((demoPair.2.dicts dr).map (fun kv => (kv.1, kv.2.model_dump))))) :=
  ⟨by decide, C3_export_shape demoPair.1 demoPair.2 (by decide)⟩

theorem resetStep1_error (jd : List (String × Json)) (s : StateData) (h : Heap)
    (e : PyErr) (s1 : StateData) (h1 : Heap)
    (hE : resetStep1 jd s h = .error (e, s1, h1)) : s1 = s ∧ h1 = h := by
  unfold resetStep1 at hE
  split at hE
  · simp at hE
  · split at hE
    · split at hE
      · simp_all
      · simp at hE
    · simp at hE

theorem resetStep1_ok (jd : List (String × Json)) (s : StateData) (h : Heap)
    (s1 : StateData) (h1 : Heap) (hE : resetStep1 jd s h = .ok (s1, h1)) :
    h1 = h ∧ s1.a_list = s.a_list ∧ s1.a_dict = s.a_dict ∧
      s1.an_object = s.an_object := by
  unfold resetStep1 at hE
  split at hE
  · simp at hE
    simp [← hE.1, hE.2]
  · split at hE
    · split at hE
      · simp at hE
      · simp at hE
        simp [← hE.1, hE.2]
    · simp at hE
      simp [← hE.1, hE.2]

theorem resetStep1_absent (jd : List (String × Json)) (s : StateData)
    (h : Heap) (hA : lookupKey "a_pydantic_object" jd = none) :
    resetStep1 jd s h = .ok (s, h) := by
  unfold resetStep1
  simp [hA]

theorem resetStep1_keeps_primary_some (jd : List (String × Json))
    (s : StateData) (h : Heap) (s1 : StateData) (h1 : Heap)
    (hE : resetStep1 jd s h = .ok (s1, h1))
    (hT : ∀ v, lookupKey "a_pydantic_object" jd = some v → v.truthy = true)
    (hS : s.a_pydantic_object.isSome = true) :
    s1.a_pydantic_object.isSome = true := by
  unfold resetStep1 at hE
  split at hE
  · simp at hE
    simp [← hE.1, hS]
  · rename_i v hv
    split at hE
    · split at hE
      · simp at hE
      · simp at hE
        simp [← hE.1]
    · rename_i hnt
      exact absurd (hT v hv) hnt

theorem resetStep2_error (jd : List (String × Json)) (s : StateData) (h : Heap)
    (e : PyErr) (s1 : StateData) (h1 : Heap)
    (hE : resetStep2 jd s h = .error (e, s1, h1)) : s1 = s ∧ h1 = h := by
  unfold resetStep2 at hE
  split at hE
  · simp at hE
  · split at hE
    · split at hE
      · split at hE
        · simp_all
        · simp at hE
      · simp_all
    · simp at hE

theorem resetStep2_ok (jd : List (String × Json)) (s : StateData) (h : Heap)
    (s1 : StateData) (h1 : Heap) (hE : resetStep2 jd s h = .ok (s1, h1)) :
    s1.a_pydantic_object = s.a_pydantic_object ∧ s1.a_dict = s.a_dict ∧
      s1.an_object = s.an_object ∧ h1.dicts = h.dicts ∧ h1.tasks = h.tasks ∧
      h1.nextDict = h.nextDict ∧ h1.nextTask = h.nextTask ∧
      s1.a_list.isSome = true ∨
      (s1 = s ∧ h1 = h) := by
  unfold resetStep2 at hE
  split at hE
  · simp at hE
    right
    simp [← hE.1, hE.2]
  · split at hE
    · split at hE
      · split at hE
        · simp at hE
        · simp at hE
          left
          simp [← hE.1, ← hE.2, Heap.allocList, updFn]
      · simp at hE
    · simp at hE
      left
      simp [← hE.1, ← hE.2, Heap.allocList, updFn]

theorem resetStep2_absent (jd : List (String × Json)) (s : StateData)
    (h : Heap) (hA : lookupKey "a_list" jd = none) :
    resetStep2 jd s h = .ok (s, h) := by
  unfold resetStep2
  simp [hA]

theorem resetStep3_error (jd : List (String × Json)) (s : StateData) (h : Heap)
    (e : PyErr) (s1 : StateData) (h1 : Heap)
    (hE : resetStep3 jd s h = .error (e, s1, h1)) : s1 = s ∧ h1 = h := by
  unfold resetStep3 at hE
  split at hE
  · simp at hE
  · split at hE
    · split at hE
      · split at hE
        · simp_all
        · simp at hE
      · simp_all
    · simp at hE

theorem resetStep3_ok (jd : List (String × Json)) (s : StateData) (h : Heap)
    (s1 : StateData) (h1 : Heap) (hE : resetStep3 jd s h = .ok (s1, h1)) :
    s1.a_pydantic_object = s.a_pydantic_object ∧ s1.a_list = s.a_list ∧
      s1.an_object = s.an_object ∧ h1.lists = h.lists ∧ h1.tasks = h.tasks ∧
      h1.nextList = h.nextList ∧ h1.nextTask = h.nextTask ∧
      s1.a_dict.isSome = true ∨
      (s1 = s ∧ h1 = h) := by
  unfold resetStep3 at hE
  split at hE
  · simp at hE
    right
    simp [← hE.1, hE.2]
  · split at hE
    · split at hE
      · split at hE
        · simp at hE
        · simp at hE
          left
          simp [← hE.1, ← hE.2, Heap.allocDict, updFn]
      · simp at hE
    · simp at hE
      left
      simp [← hE.1, ← hE.2, Heap.allocDict, updFn]

theorem resetStep3_absent (jd : List (String × Json)) (s : StateData)
    (h : Heap) (hA : lookupKey "a_dict" jd = none) :
    resetStep3 jd s h = .ok (s, h) := by
  unfold resetStep3
  simp [hA]

theorem reset_decomp (jd : List (String × Json)) (s : StateData) (h : Heap) :
    (∃ e s1 h1, resetStep1 jd s h = .error (e, s1, h1) ∧
        s.reset_from_json jd h = .error (e, s1, h1)) ∨
      (∃ s1 h1, resetStep1 jd s h = .ok (s1, h1) ∧
        ((∃ e s2 h2, resetStep2 jd s1 h1 = .error (e, s2, h2) ∧
            s.reset_from_json jd h = .error (e, s2, h2)) ∨
          (∃ s2 h2, resetStep2 jd s1 h1 = .ok (s2, h2) ∧
            s.reset_from_json jd h = resetStep3 jd s2 h2))) := by
  unfold StateData.reset_from_json
  cases h1 : resetStep1 jd s h with
  | error e =>
    obtain ⟨e1, s1, hp1⟩ := e
    exact Or.inl ⟨e1, s1, hp1, rfl, rfl⟩
  | ok p1 =>
    obtain ⟨s1, hp1⟩ := p1
    refine Or.inr ⟨s1, hp1, rfl, ?_⟩
    cases h2 : resetStep2 jd s1 hp1 with
    | error e =>
      obtain ⟨e2, s2, hp2⟩ := e
      refine Or.inl ⟨e2, s2, hp2, rfl, ?_⟩
      simp [h2]
    | ok p2 =>
      obtain ⟨s2, hp2⟩ := p2
      refine Or.inr ⟨s2, hp2, rfl, ?_⟩
      simp [h2]

theorem resetStep1_ok_absent (jd : List (String × Json)) (s : StateData)
    (h : Heap) (s1 : StateData) (h1 : Heap)
    (hE : resetStep1 jd s h = .ok (s1, h1))
    (hA : lookupKey "a_pydantic_object" jd = none) : s1 = s ∧ h1 = h := by
  rw [resetStep1_absent jd s h hA] at hE
  simp at hE
  exact ⟨hE.1.symm, hE.2.symm⟩

theorem resetStep2_ok_absent (jd : List (String × Json)) (s : StateData)
    (h : Heap) (s1 : StateData) (h1 : Heap)
    (hE : resetStep2 jd s h = .ok (s1, h1))
    (hA : lookupKey "a_list" jd = none) : s1 = s ∧ h1 = h := by
  rw [resetStep2_absent jd s h hA] at hE
  simp at hE
  exact ⟨hE.1.symm, hE.2.symm⟩

theorem resetStep3_ok_absent (jd : List (String × Json)) (s : StateData)
    (h : Heap) (s1 : StateData) (h1 : Heap)
    (hE : resetStep3 jd s h = .ok (s1, h1))
    (hA : lookupKey "a_dict" jd = none) : s1 = s ∧ h1 = h := by
  rw [resetStep3_absent jd s h hA] at hE
  simp at hE
  exact ⟨hE.1.symm, hE.2.symm⟩

theorem resetStep2_ok_frame (jd : List (String × Json)) (s : StateData)
    (h : Heap) (s1 : StateData) (h1 : Heap)
    (hE : resetStep2 jd s h = .ok (s1, h1)) :
    s1.a_pydantic_object = s.a_pydantic_object ∧ s1.a_dict = s.a_dict ∧
      s1.an_object = s.an_object ∧ h1.dicts = h.dicts ∧ h1.tasks = h.tasks ∧
      h1.nextDict = h.nextDict ∧ h1.nextTask = h.nextTask := by
  rcases resetStep2_ok jd s h s1 h1 hE with
    ⟨f1, f2, f3, f4, f5, f6, f7, f8⟩ | ⟨hs, hh⟩
  · exact ⟨f1, f2, f3, f4, f5, f6, f7⟩
  · subst hs; subst hh; exact ⟨rfl, rfl, rfl, rfl, rfl, rfl, rfl⟩

theorem resetStep3_ok_frame (jd : List (String × Json)) (s : StateData)
    (h : Heap) (s1 : StateData) (h1 : Heap)
    (hE : resetStep3 jd s h = .ok (s1, h1)) :
    s1.a_pydantic_object = s.a_pydantic_object ∧ s1.a_list = s.a_list ∧
      s1.an_object = s.an_object ∧ h1.lists = h.lists ∧ h1.tasks = h.tasks ∧
      h1.nextList = h.nextList ∧ h1.nextTask = h.nextTask := by
  rcases resetStep3_ok jd s h s1 h1 hE with
    ⟨f1, f2, f3, f4, f5, f6, f7, f8⟩ | ⟨hs, hh⟩
  · exact ⟨f1, f2, f3, f4, f5, f6, f7⟩
  · subst hs; subst hh; exact ⟨rfl, rfl, rfl, rfl, rfl, rfl, rfl⟩

/-- C6: for every Populated container and every mapping, after a
`reset_from_json` call — whether it returns or raises — the `an_object` attribute is
the same reference and no task object has been touched, and each of
`a_pydantic_object` / `a_list` / `a_dict` whose key is absent from the mapping
is exactly as before the call (same attribute value, and for the heap-allocated
collections the entire corresponding heap component is untouched). -/
theorem C6_reset_frame (s : StateData) (h : Heap) (jd : List (String × Json))
    (hp : s.populated = true) :
    (resetOutState (s.reset_from_json jd h)).an_object = s.an_object ∧
      (resetOutHeap (s.reset_from_json jd h)).tasks = h.tasks ∧
      (lookupKey "a_pydantic_object" jd = none →
        (resetOutState (s.reset_from_json jd h)).a_pydantic_object
          = s.a_pydantic_object) ∧
      (lookupKey "a_list" jd = none →
        (resetOutState (s.reset_from_json jd h)).a_list = s.a_list ∧
        (resetOutHeap (s.reset_from_json jd h)).lists = h.lists) ∧
      (lookupKey "a_dict" jd = none →
        (resetOutState (s.reset_from_json jd h)).a_dict = s.a_dict ∧
        (resetOutHeap (s.reset_from_json jd h)).dicts = h.dicts) := by
  rcases reset_decomp jd s h with ⟨e, s1, h1, hE1, hR⟩ | ⟨s1, h1, hE1, hrest⟩
  · obtain ⟨hs1, hh1⟩ := resetStep1_error jd s h e s1 h1 hE1
    simp [hR, resetOutState, resetOutHeap, hs1, hh1]
  · obtain ⟨hh1, hsl1, hsd1, hso1⟩ := resetStep1_ok jd s h s1 h1 hE1
    rcases hrest with ⟨e, s2, h2, hE2, hR⟩ | ⟨s2, h2, hE2, hR⟩
    · obtain ⟨hs2, hh2⟩ := resetStep2_error jd s1 h1 e s2 h2 hE2
      refine ⟨?_, ?_, ?_, ?_, ?_⟩
      · simp [hR, resetOutState, hs2, hso1]
      · simp [hR, resetOutHeap, hh2, hh1]
      · intro hA
        obtain ⟨he, -⟩ := resetStep1_ok_absent jd s h s1 h1 hE1 hA
        simp [hR, resetOutState, hs2, he]
      · intro hA
        simp [hR, resetOutState, resetOutHeap, hs2, hh2, hsl1, hh1]
      · intro hA
        simp [hR, resetOutState, resetOutHeap, hs2, hh2, hsd1, hh1]
    · obtain ⟨f1, f2, f3, f4, f5, f6, f7⟩ := resetStep2_ok_frame jd s1 h1 s2 h2 hE2
      cases hE3 : resetStep3 jd s2 h2 with
      | error e3 =>
        obtain ⟨e3e, s3, h3⟩ := e3
        obtain ⟨hs3, hh3⟩ := resetStep3_error jd s2 h2 e3e s3 h3 hE3
        refine ⟨?_, ?_, ?_, ?_, ?_⟩
        · rw [hR, hE3]; simp [resetOutState, hs3, f3, hso1]
        · rw [hR, hE3]; simp [resetOutHeap, hh3, f5, hh1]
        · intro hA
          obtain ⟨he, -⟩ := resetStep1_ok_absent jd s h s1 h1 hE1 hA
          rw [hR, hE3]; simp [resetOutState, hs3, f1, he]
        · intro hA
          obtain ⟨he2, hf2⟩ := resetStep2_ok_absent jd s1 h1 s2 h2 hE2 hA
          rw [hR, hE3]
          simp [resetOutState, resetOutHeap, hs3, hh3, he2, hf2, hsl1, hh1]
        · intro hA
          rw [hR, hE3]
          simp [resetOutState, resetOutHeap, hs3, hh3, f2, f4, hsd1, hh1]
      | ok p3 =>
        obtain ⟨s3, h3⟩ := p3
        obtain ⟨g1, g2, g3, g4, g5, g6, g7⟩ :=
          resetStep3_ok_frame jd s2 h2 s3 h3 hE3
        refine ⟨?_, ?_, ?_, ?_, ?_⟩
        · rw [hR, hE3]; simp [resetOutState, g3, f3, hso1]
        · rw [hR, hE3]; simp [resetOutHeap, g5, f5, hh1]
        · intro hA
          obtain ⟨he, -⟩ := resetStep1_ok_absent jd s h s1 h1 hE1 hA
          rw [hR, hE3]; simp [resetOutState, g1, f1, he]
        · intro hA
          obtain ⟨he2, hf2⟩ := resetStep2_ok_absent jd s1 h1 s2 h2 hE2 hA
          rw [hR, hE3]
          simp [resetOutState, resetOutHeap, g2, g4, he2, hf2, hsl1, hh1]
        · intro hA
          obtain ⟨he3, hf3⟩ := resetStep3_ok_absent jd s2 h2 s3 h3 hE3 hA
          rw [hR, hE3]
          simp [resetOutState, resetOutHeap, he3, hf3, f2, f4, hsd1, hh1]

/-- C6 witness: the frame theorem applied to the freshly constructed container
and a mapping carrying only a `primary` value. -/
theorem C6_witness :
    demoPair.1.populated = true ∧
      ((resetOutState (demoPair.1.reset_from_json
            [("a_pydantic_object", Json.obj [("a", Json.int 9), ("b", Json.str "w")])]
            demoPair.2)).an_object = demoPair.1.an_object ∧
        (resetOutHeap (demoPair.1.reset_from_json
            [("a_pydantic_object", Json.obj [("a", Json.int 9), ("b", Json.str "w")])]
            demoPair.2)).tasks = demoPair.2.tasks ∧
        (lookupKey "a_pydantic_object"
            [("a_pydantic_object", Json.obj [("a", Json.int 9), ("b", Json.str "w")])] = none →
          (resetOutState (demoPair.1.reset_from_json
              [("a_pydantic_object", Json.obj [("a", Json.int 9), ("b", Json.str "w")])]
              demoPair.2)).a_pydantic_object = demoPair.1.a_pydantic_object) ∧
        (lookupKey "a_list"
            [("a_pydantic_object", Json.obj [("a", Json.int 9), ("b", Json.str "w")])] = none →
          (resetOutState (demoPair.1.reset_from_json
              [("a_pydantic_object", Json.obj [("a", Json.int 9), ("b", Json.str "w")])]
              demoPair.2)).a_list = demoPair.1.a_list ∧
          (resetOutHeap (demoPair.1.reset_from_json
              [("a_pydantic_object", Json.obj [("a", Json.int 9), ("b", Json.str "w")])]
              demoPair.2)).lists = demoPair.2.lists) ∧
        (lookupKey "a_dict"
            [("a_pydantic_object", Json.obj [("a", Json.int 9), ("b", Json.str "w")])] = none →
          (resetOutState (demoPair.1.reset_from_json
              [("a_pydantic_object", Json.obj [("a", Json.int 9), ("b", Json.str "w")])]
              demoPair.2)).a_dict = demoPair.1.a_dict ∧
          (resetOutHeap (demoPair.1.reset_from_json
              [("a_pydantic_object", Json.obj [("a", Json.int 9), ("b", Json.str "w")])]
              demoPair.2)).dicts = demoPair.2.dicts)) :=
  ⟨by decide,
    C6_reset_frame demoPair.1 demoPair.2
      [("a_pydantic_object", Json.obj [("a", Json.int 9), ("b", Json.str "w")])]
      (by decide)⟩

theorem coerceInt_error (v : Json) (e : PyErr) (hE : coerceInt v = .error e) :
    e = .validationError := by
  cases v with
  | int n => simp [coerceInt] at hE
  | str t =>
    simp only [coerceInt] at hE
    cases hT : strToIntOpt t with
    | none => rw [hT] at hE; simp at hE; exact hE.symm
    | some n => rw [hT] at hE; simp at hE
  | null => simp [coerceInt] at hE; exact hE.symm
  | arr xs => simp [coerceInt] at hE; exact hE.symm
  | obj kvs => simp [coerceInt] at hE; exact hE.symm

theorem coerceStr_error (v : Json) (e : PyErr) (hE : coerceStr v = .error e) :
    e = .validationError := by
  cases v with
  | str t => simp [coerceStr] at hE
  | int n => simp [coerceStr] at hE; exact hE.symm
  | null => simp [coerceStr] at hE; exact hE.symm
  | arr xs => simp [coerceStr] at hE; exact hE.symm
  | obj kvs => simp [coerceStr] at hE; exact hE.symm

theorem validate_missing_a (kvs : List (String × Json))
    (hA : lookupKey "a" kvs = none) :
    SomePydanticModel.validate kvs = .error .validationError := by
  unfold SomePydanticModel.validate
  simp [hA]

theorem validate_missing_b (kvs : List (String × Json))
    (hB : lookupKey "b" kvs = none) :
    SomePydanticModel.validate kvs = .error .validationError := by
  unfold SomePydanticModel.validate
  split
  · rfl
  · split
    · rename_i e hce
      rw [coerceInt_error _ _ hce]
    · simp [hB]

theorem validate_bad_a_string (kvs : List (String × Json)) (t : String)
    (hA : lookupKey "a" kvs = some (.str t)) (hT : strToIntOpt t = none) :
    SomePydanticModel.validate kvs = .error .validationError := by
  unfold SomePydanticModel.validate
  rw [hA]
  simp [coerceInt, hT]

theorem validate_int_c (kvs : List (String × Json)) (n : Int)
    (hC : lookupKey "c" kvs = some (.int n)) :
    SomePydanticModel.validate kvs = .error .validationError := by
  unfold SomePydanticModel.validate
  split
  · rfl
  · split
    · rename_i e hce
      rw [coerceInt_error _ _ hce]
    · split
      · rfl
      · split
        · rename_i e hce
          rw [coerceStr_error _ _ hce]
        · rw [hC]
          simp [coerceIntList]

/-- C7: resetting a Populated container from a mapping whose `primary` value
has `a = "not-an-int"` raises a ValidationError and leaves state and heap
entirely unmodified (the raise happens before the first assignment); and in
general pydantic validation rejects, with a ValidationError, any present
record value that is missing `a`, missing `b`, has a non-integer string `a`,
or has a non-list `c`. -/
theorem C7_malformed_rejection (s : StateData) (h : Heap)
    (hp : s.populated = true) :
    s.reset_from_json
        [("a_pydantic_object",
          Json.obj [("a", Json.str "not-an-int"), ("b", Json.str "x")])] h
      = .error (.validationError, s, h) ∧
      (∀ kvs, lookupKey "a" kvs = none →
        SomePydanticModel.validate kvs = .error .validationError) ∧
      (∀ kvs, lookupKey "b" kvs = none →
        SomePydanticModel.validate kvs = .error .validationError) ∧
      (∀ kvs t, lookupKey "a" kvs = some (.str t) → strToIntOpt t = none →
        SomePydanticModel.validate kvs = .error .validationError) ∧
      (∀ kvs n, lookupKey "c" kvs = some (.int n) →
        SomePydanticModel.validate kvs = .error .validationError) := by
  refine ⟨?_, validate_missing_a, validate_missing_b, validate_bad_a_string,
    validate_int_c⟩
  rfl

/-- C7 witness: the rejection theorem applied to the freshly constructed
container. -/
theorem C7_witness :
    demoPair.1.populated = true ∧
      demoPair.1.reset_from_json
          [("a_pydantic_object",
            Json.obj [("a", Json.str "not-an-int"), ("b", Json.str "x")])]
          demoPair.2
        = .error (.validationError, demoPair.1, demoPair.2) :=
  ⟨by decide,
    (C7_malformed_rejection demoPair.1 demoPair.2 (by decide)).1⟩

/-- C5 counterexample: resetting the freshly constructed (Populated) container
from the mapping `{"a_pydantic_object": None}` — exactly what exporting an
Uninitialised container produces for that key — succeeds and leaves a state
that is neither Populated (primary is null) nor Uninitialised (list, dict and
task are non-null), so an operation does take a Populated container to a state
with a null field. -/
theorem C5_counterexample :
    demoPair.1.populated = true ∧
      resetErrKind
          (demoPair.1.reset_from_json [("a_pydantic_object", Json.null)]
            demoPair.2) = none ∧
      (resetOutState
          (demoPair.1.reset_from_json [("a_pydantic_object", Json.null)]
            demoPair.2)).populated = false ∧
      (resetOutState
          (demoPair.1.reset_from_json [("a_pydantic_object", Json.null)]
            demoPair.2)).uninitialised = false := by
  decide

/-- C5 (amended): the operations `make_random_changes` and `__deepcopy__` preserve the
Populated state, and `reset_from_json` preserves it provided the
`a_pydantic_object` key, when present in the mapping, carries a truthy value;
with a falsy (e.g. null) `a_pydantic_object` value the container is left in a
mixed state, so the unrestricted two-state claim fails. -/
theorem C5_two_state_amended :
    (∀ (s : StateData) (h : Heap) (caller now tnow : String) (d : Draws),
      s.populated = true →
      mrOk (s.make_random_changes caller now tnow d h) = true ∧
        (mrOutState (s.make_random_changes caller now tnow d h)).populated
          = true) ∧
      (∀ (s : StateData) (h : Heap),
        s.populated = true → (s.deepcopy h).1.populated = true) ∧
      (∀ (s : StateData) (h : Heap) (jd : List (String × Json)),
        s.populated = true →
        (∀ v, lookupKey "a_pydantic_object" jd = some v → v.truthy = true) →
        (resetOutState (s.reset_from_json jd h)).populated = true) := by
  refine ⟨?_, ?_, ?_⟩
  · intro s h caller now tnow d hp
    obtain ⟨⟨pm, hpm⟩, ⟨lr, hlr⟩, ⟨dr, hdr⟩, ⟨tr, htr⟩⟩ := populated_fields s hp
    constructor
    · simp [StateData.make_random_changes, hlr, hdr, htr, mrOk]
    · simp [StateData.make_random_changes, hlr, hdr, htr, mrOutState,
        StateData.populated]
  · intro s h hp
    obtain ⟨⟨pm, hpm⟩, ⟨lr, hlr⟩, ⟨dr, hdr⟩, ⟨tr, htr⟩⟩ := populated_fields s hp
    simp [StateData.deepcopy, hlr, hdr, StateData.populated, hpm, htr]
  · intro s h jd hp hT
    obtain ⟨⟨pm, hpm⟩, ⟨lr, hlr⟩, ⟨dr, hdr⟩, ⟨tr, htr⟩⟩ := populated_fields s hp
    rcases reset_decomp jd s h with ⟨e, s1, h1, hE1, hR⟩ | ⟨s1, h1, hE1, hrest⟩
    · obtain ⟨hs1, -⟩ := resetStep1_error jd s h e s1 h1 hE1
      rw [hR]
      simp [resetOutState, hs1, hp]
    · obtain ⟨-, hsl1, hsd1, hso1⟩ := resetStep1_ok jd s h s1 h1 hE1
      have hps1 : s1.a_pydantic_object.isSome = true :=
        resetStep1_keeps_primary_some jd s h s1 h1 hE1 hT (by simp [hpm])
      have hpop1 : s1.populated = true := by
        simp [StateData.populated, hps1, hsl1, hsd1, hso1, hlr, hdr, htr]
      rcases hrest with ⟨e, s2, h2, hE2, hR⟩ | ⟨s2, h2, hE2, hR⟩
      · obtain ⟨hs2, -⟩ := resetStep2_error jd s1 h1 e s2 h2 hE2
        rw [hR]
        simp [resetOutState, hs2, hpop1]
      · have hpop2 : s2.populated = true := by
          rcases resetStep2_ok jd s1 h1 s2 h2 hE2 with
            ⟨f1, f2, f3, -, -, -, -, f8⟩ | ⟨hs, -⟩
          · simp [StateData.populated, f1, f2, f3, f8, hps1, hsd1, hso1, hdr,
              htr]
          · rw [hs]; exact hpop1
        have hpop2c := hpop2
        simp [StateData.populated] at hpop2c
        cases hE3 : resetStep3 jd s2 h2 with
        | error e3 =>
          obtain ⟨e3e, s3, h3⟩ := e3
          obtain ⟨hs3, -⟩ := resetStep3_error jd s2 h2 e3e s3 h3 hE3
          rw [hR, hE3]
          simp [resetOutState, hs3, hpop2]
        | ok p3 =>
          obtain ⟨s3, h3⟩ := p3
          have hpop3 : s3.populated = true := by
            rcases resetStep3_ok jd s2 h2 s3 h3 hE3 with
              ⟨g1, g2, g3, -, -, -, -, g8⟩ | ⟨hs, -⟩
            · simp [StateData.populated, g1, g2, g3, g8, hpop2c.1.1.1,
                hpop2c.1.1.2, hpop2c.2]
            · rw [hs]; exact hpop2
          rw [hR, hE3]
          simpa [resetOutState] using hpop3

/-- C5 witness: the amended theorem applied at concrete inputs — a mutation, a
deep copy and a reset with an empty mapping on the freshly constructed
container. -/
theorem C5_witness :
    demoPair.1.populated = true ∧
      (mrOk (demoPair.1.make_random_changes "x" "t1" "t2" ⟨1, 2, 3, 4, 5, 6, 7⟩
            demoPair.2) = true ∧
        (mrOutState (demoPair.1.make_random_changes "x" "t1" "t2"
            ⟨1, 2, 3, 4, 5, 6, 7⟩ demoPair.2)).populated = true) ∧
      (demoPair.1.deepcopy demoPair.2).1.populated = true ∧
      (resetOutState (demoPair.1.reset_from_json [] demoPair.2)).populated
        = true :=
  ⟨by decide,
    C5_two_state_amended.1 demoPair.1 demoPair.2 "x" "t1" "t2"
      ⟨1, 2, 3, 4, 5, 6, 7⟩ (by decide),
    C5_two_state_amended.2.1 demoPair.1 demoPair.2 (by decide),
    C5_two_state_amended.2.2 demoPair.1 demoPair.2 [] (by decide)
      (fun v hv => by simp [lookupKey] at hv)⟩

theorem randint_le (n sd : Nat) : randint 0 n sd ≤ n := by
  unfold randint
  have hlt : sd % (n - 0 + 1) < n - 0 + 1 := Nat.mod_lt sd (by omega)
  omega

/-- C9: on a Populated container, for every outcome of the randomness and
clock, `make_random_changes` appends exactly one entry to the list object
(`a` in `[0,99]`, `b = "changed-{caller}@{now}"`, `c = 0..k-1` with `k` in
`[0,9]`), performs exactly one upsert into the dict object under a key
`"key-{n}"` with `n` in `[0,9999]`, rebinds `primary` to a fresh record with
`a` in `[0,499]`, and updates the output of the shared task — and nothing else in
the container or the heap changes. -/
theorem C9_make_random_changes_effects (s : StateData) (h : Heap)
    (caller now tnow : String) (d : Draws) (hp : s.populated = true) :
    ∃ lr dr tr s2 h2,
      s.a_list = some lr ∧ s.a_dict = some dr ∧ s.an_object = some tr ∧
      s.make_random_changes caller now tnow d h = .ok (s2, h2) ∧
      (∃ item1, h2.lists lr = h.lists lr ++ [item1] ∧
        0 ≤ item1.a ∧ item1.a ≤ 99 ∧
        item1.b = "changed-" ++ caller ++ "@" ++ now ∧
        (∃ k, k ≤ 9 ∧
          item1.c = some ((List.range k).map (fun i => (i : Int))))) ∧
      (∃ n item2, n ≤ 9999 ∧ 0 ≤ item2.a ∧ item2.a ≤ 999 ∧
        h2.dicts dr = upsertD (h.dicts dr) ("key-" ++ toString n) item2) ∧
      (∃ p, s2.a_pydantic_object = some p ∧ 0 ≤ p.a ∧ p.a ≤ 499 ∧
        p.b = "changed-" ++ caller ++ "@" ++ now) ∧
      (h2.tasks tr).task_output = "task-done at " ++ tnow ∧
      s2.a_list = s.a_list ∧ s2.a_dict = s.a_dict ∧
      s2.an_object = s.an_object ∧
      (∀ r, r ≠ lr → h2.lists r = h.lists r) ∧
      (∀ r, r ≠ dr → h2.dicts r = h.dicts r) ∧
      (∀ r, r ≠ tr → h2.tasks r = h.tasks r) ∧
      h2.nextList = h.nextList ∧ h2.nextDict = h.nextDict ∧
      h2.nextTask = h.nextTask := by
  obtain ⟨⟨pm, hpm⟩, ⟨lr, hlr⟩, ⟨dr, hdr⟩, ⟨tr, htr⟩⟩ := populated_fields s hp
  obtain ⟨po, al, ad, ao⟩ := s
  simp only at hlr hdr htr
  subst hlr; subst hdr; subst htr
  refine ⟨lr, dr, tr, _, _, rfl, rfl, rfl, rfl, ?_, ?_, ?_, ?_, rfl, rfl, rfl,
    ?_, ?_, ?_, rfl, rfl, rfl⟩
  · refine ⟨⟨((randint 0 99 d.d1 : Nat) : Int),
      "changed-" ++ caller ++ "@" ++ now,
      some ((List.range (randint 0 9 d.d2)).map (fun i => (i : Int)))⟩,
      ?_, Int.natCast_nonneg _, Int.ofNat_le.mpr (randint_le 99 d.d1), rfl,
      randint 0 9 d.d2, randint_le 9 d.d2, rfl⟩
    simp [StateData.make_random_changes, Heap.setList, Heap.setDict,
      Heap.setTask, updFn]
  · refine ⟨randint 0 9999 d.d3,
      ⟨((randint 0 999 d.d4 : Nat) : Int),
        "changed-" ++ caller ++ "@" ++ now,
        some ((List.range (randint 0 9 d.d5)).map (fun i => (i : Int)))⟩,
      randint_le 9999 d.d3, Int.natCast_nonneg _,
      Int.ofNat_le.mpr (randint_le 999 d.d4), ?_⟩
    simp [StateData.make_random_changes, Heap.setList, Heap.setDict,
      Heap.setTask, updFn]
  · exact ⟨⟨((randint 0 499 d.d6 : Nat) : Int),
      "changed-" ++ caller ++ "@" ++ now,
      some ((List.range (randint 0 9 d.d7)).map (fun i => (i : Int)))⟩,
      rfl, Int.natCast_nonneg _, Int.ofNat_le.mpr (randint_le 499 d.d6), rfl⟩
  · simp [StateData.make_random_changes, Heap.setList, Heap.setDict,
      Heap.setTask, updFn, SomeTask.do_task]
  · intro r hr
    simp [StateData.make_random_changes, Heap.setList, Heap.setDict,
      Heap.setTask, updFn, hr]
  · intro r hr
    simp [StateData.make_random_changes, Heap.setList, Heap.setDict,
      Heap.setTask, updFn, hr]
  · intro r hr
    simp [StateData.make_random_changes, Heap.setList, Heap.setDict,
      Heap.setTask, updFn, hr]

/-- C9 witness: the effects theorem applied to the freshly constructed
container with concrete seeds and timestamps. -/
theorem C9_witness :
    demoPair.1.populated = true ∧
      ∃ lr dr tr s2 h2,
        demoPair.1.a_list = some lr ∧ demoPair.1.a_dict = some dr ∧
        demoPair.1.an_object = some tr ∧
        demoPair.1.make_random_changes "x" "t1" "t2" ⟨1, 2, 3, 4, 5, 6, 7⟩
            demoPair.2 = .ok (s2, h2) ∧
        (∃ item1, h2.lists lr = demoPair.2.lists lr ++ [item1] ∧
          0 ≤ item1.a ∧ item1.a ≤ 99 ∧
          item1.b = "changed-" ++ "x" ++ "@" ++ "t1" ∧
          (∃ k, k ≤ 9 ∧
            item1.c = some ((List.range k).map (fun i => (i : Int))))) ∧
        (∃ n item2, n ≤ 9999 ∧ 0 ≤ item2.a ∧ item2.a ≤ 999 ∧
          h2.dicts dr
            = upsertD (demoPair.2.dicts dr) ("key-" ++ toString n) item2) ∧
        (∃ p, s2.a_pydantic_object = some p ∧ 0 ≤ p.a ∧ p.a ≤ 499 ∧
          p.b = "changed-" ++ "x" ++ "@" ++ "t1") ∧
        (h2.tasks tr).task_output = "task-done at " ++ "t2" ∧
        s2.a_list = demoPair.1.a_list ∧ s2.a_dict = demoPair.1.a_dict ∧
        s2.an_object = demoPair.1.an_object ∧
        (∀ r, r ≠ lr → h2.lists r = demoPair.2.lists r) ∧
        (∀ r, r ≠ dr → h2.dicts r = demoPair.2.dicts r) ∧
        (∀ r, r ≠ tr → h2.tasks r = demoPair.2.tasks r) ∧
        h2.nextList = demoPair.2.nextList ∧
        h2.nextDict = demoPair.2.nextDict ∧
        h2.nextTask = demoPair.2.nextTask :=
  ⟨by decide,
    C9_make_random_changes_effects demoPair.1 demoPair.2 "x" "t1" "t2"
      ⟨1, 2, 3, 4, 5, 6, 7⟩ (by decide)⟩

/-- C8: on a Populated, heap-valid container, `__deepcopy__` yields a copy
whose `primary` is structurally equal, whose list and dict objects are freshly
allocated (different addresses) with equal contents, and whose task reference
is the very same address; mutating the copy with `make_random_changes` then
leaves the original container and its list and dict objects unchanged, while the shared task
cell — read through the original container and its own reference — shows the update made through the copy. -/
theorem C8_deepcopy_asymmetry (s : StateData) (h : Heap)
    (caller now tnow : String) (d : Draws) (hp : s.populated = true)
    (hw : s.wf h = true) :
    ∃ lr dr tr, s.a_list = some lr ∧ s.a_dict = some dr ∧
      s.an_object = some tr ∧
      (s.deepcopy h).1.a_pydantic_object = s.a_pydantic_object ∧
      (∃ lr2, (s.deepcopy h).1.a_list = some lr2 ∧ lr2 ≠ lr ∧
        (s.deepcopy h).2.lists lr2 = h.lists lr) ∧
      (∃ dr2, (s.deepcopy h).1.a_dict = some dr2 ∧ dr2 ≠ dr ∧
        (s.deepcopy h).2.dicts dr2 = h.dicts dr) ∧
      (s.deepcopy h).1.an_object = some tr ∧
      (∃ c3 h2, (s.deepcopy h).1.make_random_changes caller now tnow d
          (s.deepcopy h).2 = .ok (c3, h2) ∧
        h2.lists lr = h.lists lr ∧
        h2.dicts dr = h.dicts dr ∧
        c3.an_object = some tr ∧
        (h2.tasks tr).task_output = "task-done at " ++ tnow) := by
  obtain ⟨⟨pm, hpm⟩, ⟨lr, hlr⟩, ⟨dr, hdr⟩, ⟨tr, htr⟩⟩ := populated_fields s hp
  obtain ⟨po, al, ad, ao⟩ := s
  simp only at hlr hdr htr
  subst hlr; subst hdr; subst htr
  simp [StateData.wf, refLt] at hw
  obtain ⟨⟨hwl, hwd⟩, hwt⟩ := hw
  have hne1 : h.nextList ≠ lr := by omega
  have hne2 : h.nextDict ≠ dr := by omega
  have hne3 : lr ≠ h.nextList := by omega
  have hne4 : dr ≠ h.nextDict := by omega
  refine ⟨lr, dr, tr, rfl, rfl, rfl, rfl, ⟨h.nextList, ?_, hne1, ?_⟩,
    ⟨h.nextDict, ?_, hne2, ?_⟩, rfl, _, _, rfl, ?_, ?_, rfl, ?_⟩
  · simp [StateData.deepcopy, Heap.allocList, Heap.allocDict]
  · simp [StateData.deepcopy, Heap.allocList, Heap.allocDict, updFn]
  · simp [StateData.deepcopy, Heap.allocList, Heap.allocDict]
  · simp [StateData.deepcopy, Heap.allocList, Heap.allocDict, updFn]
  · simp [StateData.deepcopy, StateData.make_random_changes, Heap.allocList,
      Heap.allocDict, Heap.setList, Heap.setDict, Heap.setTask, updFn, hne3]
  · simp [StateData.deepcopy, StateData.make_random_changes, Heap.allocList,
      Heap.allocDict, Heap.setList, Heap.setDict, Heap.setTask, updFn, hne4]
  · simp [StateData.deepcopy, StateData.make_random_changes, Heap.allocList,
      Heap.allocDict, Heap.setList, Heap.setDict, Heap.setTask, updFn,
      SomeTask.do_task]

/-- C8 witness: the deep-copy asymmetry theorem applied to the freshly
constructed container with concrete seeds and timestamps. -/
theorem C8_witness :
    demoPair.1.populated = true ∧ demoPair.1.wf demoPair.2 = true ∧
      ∃ lr dr tr, demoPair.1.a_list = some lr ∧ demoPair.1.a_dict = some dr ∧
        demoPair.1.an_object = some tr ∧
        (demoPair.1.deepcopy demoPair.2).1.a_pydantic_object
          = demoPair.1.a_pydantic_object ∧
        (∃ lr2, (demoPair.1.deepcopy demoPair.2).1.a_list = some lr2 ∧
          lr2 ≠ lr ∧
          (demoPair.1.deepcopy demoPair.2).2.lists lr2
            = demoPair.2.lists lr) ∧
        (∃ dr2, (demoPair.1.deepcopy demoPair.2).1.a_dict = some dr2 ∧
          dr2 ≠ dr ∧
          (demoPair.1.deepcopy demoPair.2).2.dicts dr2
            = demoPair.2.dicts dr) ∧
        (demoPair.1.deepcopy demoPair.2).1.an_object = some tr ∧
        (∃ c3 h2, (demoPair.1.deepcopy demoPair.2).1.make_random_changes
            "y" "t1" "t2" ⟨1, 2, 3, 4, 5, 6, 7⟩
            (demoPair.1.deepcopy demoPair.2).2 = .ok (c3, h2) ∧
          h2.lists lr = demoPair.2.lists lr ∧
          h2.dicts dr = demoPair.2.dicts dr ∧
          c3.an_object = some tr ∧
          (h2.tasks tr).task_output = "task-done at " ++ "t2") :=
  ⟨by decide, by decide,
    C8_deepcopy_asymmetry demoPair.1 demoPair.2 "y" "t1" "t2"
      ⟨1, 2, 3, 4, 5, 6, 7⟩ (by decide) (by decide)⟩

theorem resetStep1_hit (jd : List (String × Json)) (pm : SomePydanticModel)
    (hk : lookupKey "a_pydantic_object" jd = some pm.model_dump)
    (s : StateData) (h : Heap) :
    resetStep1 jd s h = .ok ({ s with a_pydantic_object := some pm }, h) := by
  unfold resetStep1
  rw [hk]
  simp [truthy_dump, validateJson_dump]

theorem resetStep2_roundtrip (jd : List (String × Json))
    (xs : List SomePydanticModel)
    (hk : lookupKey "a_list" jd = some (if xs.isEmpty then Json.null
      else .arr (xs.map SomePydanticModel.model_dump)))
    (s : StateData) (h : Heap) :
    resetStep2 jd s h
      = .ok ({ s with a_list := some h.nextList }, (h.allocList xs).2) := by
  cases xs with
  | nil =>
    simp at hk
    unfold resetStep2
    rw [hk]
    simp [Json.truthy, Heap.allocList]
  | cons x t =>
    simp at hk
    unfold resetStep2
    rw [hk]
    have hm := mapME_validate_dump (x :: t)
    simp at hm
    simp [Json.truthy, hm, Heap.allocList]

theorem resetStep3_roundtrip (jd : List (String × Json))
    (kvs : List (String × SomePydanticModel))
    (hk : lookupKey "a_dict" jd = some (if kvs.isEmpty then Json.null
      else .obj (kvs.map (fun kv => (kv.1, kv.2.model_dump)))))
    (s : StateData) (h : Heap) :
    resetStep3 jd s h
      = .ok ({ s with a_dict := some h.nextDict }, (h.allocDict kvs).2) := by
  cases kvs with
  | nil =>
    simp at hk
    unfold resetStep3
    rw [hk]
    simp [Json.truthy, Heap.allocDict]
  | cons x t =>
    simp at hk
    unfold resetStep3
    rw [hk]
    have hm := mapMD_validate_dump (x :: t)
    simp at hm
    simp [Json.truthy, hm, Heap.allocDict]

/-- C4: export/reset round-trip.  For every Populated container `c`,
constructing `c2 = StateData(an_object=c.an_object)` and then resetting `c2`
from `c.to_dict()` raises nothing and yields a container whose
`a_pydantic_object` equals that of `c`, whose `a_list` and `a_dict` are again
non-null references to list and dict objects holding contents value-equal to
those of `c`, and whose `an_object` is the very same reference as that of
`c`. -/
theorem C4_export_reset_roundtrip (s : StateData) (h : Heap)
    (hp : s.populated = true) :
    resetErrKind ((StateData.init false s.an_object h).1.reset_from_json
        (s.to_dict h) (StateData.init false s.an_object h).2) = none ∧
      (resetOutState ((StateData.init false s.an_object h).1.reset_from_json
          (s.to_dict h)
          (StateData.init false s.an_object h).2)).a_pydantic_object
        = s.a_pydantic_object ∧
      (resetOutState ((StateData.init false s.an_object h).1.reset_from_json
          (s.to_dict h) (StateData.init false s.an_object h).2)).an_object
        = s.an_object ∧
      (∃ lr lr2, s.a_list = some lr ∧
        (resetOutState ((StateData.init false s.an_object h).1.reset_from_json
            (s.to_dict h) (StateData.init false s.an_object h).2)).a_list
          = some lr2 ∧
        (resetOutHeap ((StateData.init false s.an_object h).1.reset_from_json
            (s.to_dict h) (StateData.init false s.an_object h).2)).lists lr2
          = h.lists lr) ∧
      (∃ dr dr2, s.a_dict = some dr ∧
        (resetOutState ((StateData.init false s.an_object h).1.reset_from_json
            (s.to_dict h) (StateData.init false s.an_object h).2)).a_dict
          = some dr2 ∧
        (resetOutHeap ((StateData.init false s.an_object h).1.reset_from_json
            (s.to_dict h) (StateData.init false s.an_object h).2)).dicts dr2
          = h.dicts dr) := by
  obtain ⟨⟨pm, hpm⟩, ⟨lr, hlr⟩, ⟨dr, hdr⟩, ⟨tr, htr⟩⟩ := populated_fields s hp
  obtain ⟨po, al, ad, ao⟩ := s
  simp only at hpm hlr hdr htr
  subst hpm; subst hlr; subst hdr; subst htr
  have hk1 : lookupKey "a_pydantic_object"
      (StateData.to_dict ⟨some pm, some lr, some dr, some tr⟩ h)
      = some pm.model_dump := by
    simp [StateData.to_dict, lookupKey]
  have hk2 : lookupKey "a_list"
      (StateData.to_dict ⟨some pm, some lr, some dr, some tr⟩ h)
      = some (if (h.lists lr).isEmpty then Json.null
        else .arr ((h.lists lr).map SomePydanticModel.model_dump)) := by
    simp [StateData.to_dict, lookupKey]
  have hk3 : lookupKey "a_dict"
      (StateData.to_dict ⟨some pm, some lr, some dr, some tr⟩ h)
      = some (if (h.dicts dr).isEmpty then Json.null
        else .obj ((h.dicts dr).map (fun kv => (kv.1, kv.2.model_dump)))) := by
    simp [StateData.to_dict, lookupKey]
  dsimp only
  unfold StateData.reset_from_json
  rw [StateData.init]
  dsimp only
  rw [resetStep1_hit _ _ hk1]
  dsimp only
  rw [resetStep2_roundtrip _ _ hk2]
  dsimp only
  rw [resetStep3_roundtrip _ _ hk3]
  dsimp only [resetErrKind, resetOutState, resetOutHeap]
  refine ⟨rfl, rfl, rfl, ⟨lr, _, rfl, rfl, ?_⟩, ⟨dr, _, rfl, rfl, ?_⟩⟩
  · simp [Heap.allocList, Heap.allocDict, Heap.allocTask, updFn]
  · simp [Heap.allocList, Heap.allocDict, Heap.allocTask, updFn]

/-- C4 witness: the round-trip theorem applied to the freshly constructed
container. -/
theorem C4_witness :
    demoPair.1.populated = true ∧
      resetErrKind ((StateData.init false demoPair.1.an_object
            demoPair.2).1.reset_from_json (demoPair.1.to_dict demoPair.2)
          (StateData.init false demoPair.1.an_object demoPair.2).2) = none ∧
      (resetOutState ((StateData.init false demoPair.1.an_object
            demoPair.2).1.reset_from_json (demoPair.1.to_dict demoPair.2)
          (StateData.init false demoPair.1.an_object
            demoPair.2).2)).a_pydantic_object
        = demoPair.1.a_pydantic_object ∧
      (resetOutState ((StateData.init false demoPair.1.an_object
            demoPair.2).1.reset_from_json (demoPair.1.to_dict demoPair.2)
          (StateData.init false demoPair.1.an_object
            demoPair.2).2)).an_object = demoPair.1.an_object ∧
      (∃ lr lr2, demoPair.1.a_list = some lr ∧
        (resetOutState ((StateData.init false demoPair.1.an_object
              demoPair.2).1.reset_from_json (demoPair.1.to_dict demoPair.2)
            (StateData.init false demoPair.1.an_object
              demoPair.2).2)).a_list = some lr2 ∧
        (resetOutHeap ((StateData.init false demoPair.1.an_object
              demoPair.2).1.reset_from_json (demoPair.1.to_dict demoPair.2)
            (StateData.init false demoPair.1.an_object
              demoPair.2).2)).lists lr2 = demoPair.2.lists lr) ∧
      (∃ dr dr2, demoPair.1.a_dict = some dr ∧
        (resetOutState ((StateData.init false demoPair.1.an_object
              demoPair.2).1.reset_from_json (demoPair.1.to_dict demoPair.2)
            (StateData.init false demoPair.1.an_object
              demoPair.2).2)).a_dict = some dr2 ∧
        (resetOutHeap ((StateData.init false demoPair.1.an_object
              demoPair.2).1.reset_from_json (demoPair.1.to_dict demoPair.2)
            (StateData.init false demoPair.1.an_object
              demoPair.2).2)).dicts dr2 = demoPair.2.dicts dr) :=
  ⟨by decide, C4_export_reset_roundtrip demoPair.1 demoPair.2 (by decide)⟩

/-- C10: the operation `reset_from_json` handles present keys in the fixed source order
`a_pydantic_object`, then `a_list`, then `a_dict`, and is not atomic on
failure.  With a valid `a_pydantic_object` and a malformed `a_list` entry, the
ValidationError is raised after the primary record has already been
overwritten while the list object is untouched; with valid
`a_pydantic_object` and `a_list` and a malformed `a_dict` value, both earlier
fields are already overwritten when the error is raised and the dict object is
untouched. -/
theorem C10_reset_order_not_atomic :
    resetErrKind (demoPair.1.reset_from_json
        [("a_pydantic_object",
          Json.obj [("a", Json.int 5), ("b", Json.str "y")]),
          ("a_list",
            Json.arr [Json.obj [("a", Json.str "bad"), ("b", Json.str "z")]])]
        demoPair.2) = some .validationError ∧
      (resetOutState (demoPair.1.reset_from_json
          [("a_pydantic_object",
            Json.obj [("a", Json.int 5), ("b", Json.str "y")]),
            ("a_list",
              Json.arr [Json.obj [("a", Json.str "bad"), ("b", Json.str "z")]])]
          demoPair.2)).a_pydantic_object = some ⟨5, "y", some []⟩ ∧
      demoPair.1.a_pydantic_object = some ⟨1, "default", some [1, 2, 3, 4]⟩ ∧
      (resetOutState (demoPair.1.reset_from_json
          [("a_pydantic_object",
            Json.obj [("a", Json.int 5), ("b", Json.str "y")]),
            ("a_list",
              Json.arr [Json.obj [("a", Json.str "bad"), ("b", Json.str "z")]])]
          demoPair.2)).a_list = demoPair.1.a_list ∧
      (resetOutHeap (demoPair.1.reset_from_json
          [("a_pydantic_object",
            Json.obj [("a", Json.int 5), ("b", Json.str "y")]),
            ("a_list",
              Json.arr [Json.obj [("a", Json.str "bad"), ("b", Json.str "z")]])]
          demoPair.2)).lists 0 = demoPair.2.lists 0 ∧
      resetErrKind (demoPair.1.reset_from_json
          [("a_pydantic_object",
            Json.obj [("a", Json.int 6), ("b", Json.str "z")]),
            ("a_list",
              Json.arr [Json.obj [("a", Json.int 7), ("b", Json.str "w")]]),
            ("a_dict",
              Json.obj [("k",
                Json.obj [("a", Json.str "bad"), ("b", Json.str "u")])])]
          demoPair.2) = some .validationError ∧
      (resetOutState (demoPair.1.reset_from_json
          [("a_pydantic_object",
            Json.obj [("a", Json.int 6), ("b", Json.str "z")]),
            ("a_list",
              Json.arr [Json.obj [("a", Json.int 7), ("b", Json.str "w")]]),
            ("a_dict",
              Json.obj [("k",
                Json.obj [("a", Json.str "bad"), ("b", Json.str "u")])])]
          demoPair.2)).a_pydantic_object = some ⟨6, "z", some []⟩ ∧
      (resetOutState (demoPair.1.reset_from_json
          [("a_pydantic_object",
            Json.obj [("a", Json.int 6), ("b", Json.str "z")]),
            ("a_list",
              Json.arr [Json.obj [("a", Json.int 7), ("b", Json.str "w")]]),
            ("a_dict",
              Json.obj [("k",
                Json.obj [("a", Json.str "bad"), ("b", Json.str "u")])])]
          demoPair.2)).a_list = some 1 ∧
      (resetOutHeap (demoPair.1.reset_from_json
          [("a_pydantic_object",
            Json.obj [("a", Json.int 6), ("b", Json.str "z")]),
            ("a_list",
              Json.arr [Json.obj [("a", Json.int 7), ("b", Json.str "w")]]),
            ("a_dict",
              Json.obj [("k",
                Json.obj [("a", Json.str "bad"), ("b", Json.str "u")])])]
          demoPair.2)).lists 1 = [⟨7, "w", some []⟩] ∧
      (resetOutState (demoPair.1.reset_from_json
          [("a_pydantic_object",
            Json.obj [("a", Json.int 6), ("b", Json.str "z")]),
            ("a_list",
              Json.arr [Json.obj [("a", Json.int 7), ("b", Json.str "w")]]),
            ("a_dict",
              Json.obj [("k",
                Json.obj [("a", Json.str "bad"), ("b", Json.str "u")])])]
          demoPair.2)).a_dict = demoPair.1.a_dict ∧
      (resetOutHeap (demoPair.1.reset_from_json
          [("a_pydantic_object",
            Json.obj [("a", Json.int 6), ("b", Json.str "z")]),
            ("a_list",
              Json.arr [Json.obj [("a", Json.int 7), ("b", Json.str "w")]]),
            ("a_dict",
              Json.obj [("k",
                Json.obj [("a", Json.str "bad"), ("b", Json.str "u")])])]
          demoPair.2)).dicts 0 = demoPair.2.dicts 0 := by
  decide
